import Mathlib

/-!
# Verification of the pkoch-public-bucket edge worker

A shallow embedding of the worker's request handler (the combined
handler in the repository: JWT verification against a fetched JWKS,
an authenticated short-link store over a key-value binding, and a
public blob-store read path), together with theorems settling the
specification's claims about it.

Platform builtins (`atob`, `JSON.parse`, WebCrypto key import and
signature verification, the JWKS HTTP fetch) are modelled as oracle
functions carried in the environment; everything the source code
itself does (segment splitting, truthiness tests, field selection,
control flow, store updates) is translated directly from the source.
-/

/-- A JWKS key descriptor; the code only inspects its `kid` field
(`jwks.keys.find(k => k.kid === header.kid)`), so only that field is
modelled. `kid` may be absent (`undefined`), and the JS `===`
comparison on possibly-absent values is `Option` equality. -/
structure Jwk where
  kid : Option String
deriving DecidableEq, Repr

/-- The decoded JWT header; the code reads only `header.kid`. -/
structure JwtHeader where
  kid : Option String
deriving DecidableEq, Repr

/-- The decoded JWT claim set: the fields the code reads
(`iss`, `aud`, `exp`, `nbf`, `sub`), each possibly absent.
Numeric claims are modelled as integers (seconds). -/
structure Claims where
  iss : Option String
  aud : Option String
  exp : Option Int
  nbf : Option Int
  sub : Option String
deriving DecidableEq, Repr

/-- The environment of a JWT verification call: configuration values
read from `env`, the current time, and oracles for the platform
builtins the code calls.

* `jwks`: the result of fetching `env.JWKS_URL` and parsing its JSON
  body into `jwks.keys`; `none` models a failed fetch, a non-ok
  response, or an unparseable body (each of which throws and is
  caught).
* `parseHeader s` / `parseClaims s`: the result of
  `JSON.parse(atob(s))` applied to a base64url-normalized segment;
  `none` models a thrown exception.
* `atobBytes s`: the byte string produced from `atob(s)`; `none`
  models `atob` throwing on invalid base64.
* `importKeyOk k`: whether `crypto.subtle.importKey` succeeds on the
  matched JWKS key.
* `verify k sig data`: the boolean result of `crypto.subtle.verify`
  with the imported key, the decoded signature bytes, and the UTF-8
  signing input. -/
structure JwtEnv where
  jwks : Option (List Jwk)
  JWT_ISSUER : Option String
  JWT_AUDIENCE : Option String
  now : Int
  parseHeader : String → Option JwtHeader
  parseClaims : String → Option Claims
  atobBytes : String → Option (List Nat)
  importKeyOk : Jwk → Bool
  verify : Jwk → List Nat → String → Bool

/-- The JS `split` builtin on a single-character separator with no
limit, on character lists: `"a.b.".split('.')` is `["a","b",""]` and
`"".split('.')` is `[""]`. -/
def splitChar (sep : Char) : List Char → List (List Char)
  | [] => [[]]
  | c :: cs =>
    match splitChar sep cs with
    | [] => [[c]]
    | p :: ps => if c = sep then [] :: p :: ps else (c :: p) :: ps

/-- JS `s.split(sep)` for a one-character separator, as a list of
strings. -/
def jsSplit (sep : Char) (s : String) : List String :=
  (splitChar sep s.data).map (fun cs => String.mk cs)

/-- The two chained `replace` calls that turn each dash into a plus
and each underscore into a slash: base64url to base64 character
normalization applied before every `atob` call. -/
def b64urlToB64 (s : String) : String :=
  String.mk (s.data.map (fun c => if c = '-' then '+' else if c = '_' then '/' else c))

/-- JS number truthiness for the guard `payload.exp && ...`:
an absent claim and the number `0` are falsy. -/
def truthyNum (v : Option Int) : Bool :=
  match v with
  | none => false
  | some n => !(n == 0)

/-- `verifyJWT(token, env)` from the source.  Returns the decoded
claim set on success and `none` on any failure (every throw inside
the function body is caught and turned into `return null`).

Control flow, translated step by step from the source:
1. fetch JWKS (`env.jwks`);
2. `const [headerB64] = token.split('.')`, decode the header,
   read `kid`;
3. find the JWKS key with matching `kid`;
4. import the key;
5. `const [headerPart, payloadPart, signaturePart] = token.split('.')`
   — destructuring takes the first elements and leaves the rest
   `undefined`; the signing input is the template string
   `headerPart + "." + payloadPart` where an `undefined` part prints
   as the literal text `undefined`; decoding the signature segment
   throws when that segment is `undefined` (a `TypeError` on
   `.replace`) or not valid base64;
6. verify the signature over the signing input;
7. decode the payload; check `iss`, `aud` by strict equality against
   the configured values; reject when `exp` is truthy and below the
   current time, or `nbf` is truthy and above it. -/
def verifyJWT (token : String) (env : JwtEnv) : Option Claims :=
  match env.jwks with
  | none => none
  | some keys =>
    let segs := jsSplit '.' token
    let headerB64 := segs.headD ""
    match env.parseHeader (b64urlToB64 headerB64) with
    | none => none
    | some header =>
      match keys.find? (fun k => k.kid == header.kid) with
      | none => none
      | some key =>
        if env.importKeyOk key then
          let headerSeg := (segs[0]?).getD "undefined"
          let payloadSeg := (segs[1]?).getD "undefined"
          let data := headerSeg ++ "." ++ payloadSeg
          match segs[2]? with
          | none => none
          | some sigSeg =>
            match env.atobBytes (b64urlToB64 sigSeg) with
            | none => none
            | some sig =>
              if env.verify key sig data then
                match env.parseClaims (b64urlToB64 payloadSeg) with
                | none => none
                | some payload =>
                  if payload.iss == env.JWT_ISSUER then
                    if payload.aud == env.JWT_AUDIENCE then
                      if truthyNum payload.exp &&
                          decide ((payload.exp.getD 0) < env.now) then
                        none
                      else if truthyNum payload.nbf &&
                          decide ((payload.nbf.getD 0) > env.now) then
                        none
                      else
                        some payload
                    else none
                  else none
              else none
        else none

/-- A sample environment whose oracles behave like the platform on a
handful of concrete base64url segments: `hdrSeg` decodes to a header
with `kid = "k1"`, `claimSeg` decodes to a claim set matching the
configured issuer and audience with no `exp`/`nbf`, `expZeroSeg`
decodes to the same claim set but with `exp = 0`, the signature
segment decodes to some bytes, and signature verification accepts. -/
def hdrSeg : String := "eyJraWQiOiJrMSJ9"

def claimSeg : String := "eyJpc3MiOiJJIiwiYXVkIjoiQSIsInN1YiI6InMifQ"

def expZeroSeg : String := "eyJpc3MiOiJJIiwiYXVkIjoiQSIsImV4cCI6MH0"

def expFutureSeg : String := "eyJpc3MiOiJJIiwiYXVkIjoiQSIsImV4cCI6MTgwMDAwMDAwMH0"

def sigSegC : String := "c2ln"

def okClaims : Claims :=
  { iss := some "I", aud := some "A", exp := none, nbf := none, sub := some "s" }

def expZeroClaims : Claims :=
  { iss := some "I", aud := some "A", exp := some 0, nbf := none, sub := none }

def expFutureClaims : Claims :=
  { iss := some "I", aud := some "A", exp := some 1800000000, nbf := none, sub := none }

def sampleJwtEnv : JwtEnv :=
  { jwks := some [{ kid := some "k1" }]
    JWT_ISSUER := some "I"
    JWT_AUDIENCE := some "A"
    now := 1700000000
    parseHeader := fun s =>
      if s = b64urlToB64 hdrSeg then some { kid := some "k1" } else none
    parseClaims := fun s =>
      if s = b64urlToB64 claimSeg then some okClaims
      else if s = b64urlToB64 expZeroSeg then some expZeroClaims
      else if s = b64urlToB64 expFutureSeg then some expFutureClaims
      else none
    atobBytes := fun s =>
      if s = b64urlToB64 sigSegC then some [115, 105, 103] else none
    importKeyOk := fun _ => true
    verify := fun _ _ _ => true }

example :
    verifyJWT (hdrSeg ++ "." ++ claimSeg ++ "." ++ sigSegC) sampleJwtEnv
      = some okClaims := by decide

example :
    verifyJWT (hdrSeg ++ "." ++ claimSeg) sampleJwtEnv = none := by decide

/-- The short-link record shape the handler writes and reads.  Every
field is optional because `JSON.parse` of a stored value yields an
object whose fields may each be absent; the handler itself writes
`url`+`created`+`createdBy` on POST and `url`+`updated`+`updatedBy`
on PUT. -/
structure LinkRecord where
  url : Option String
  created : Option String
  createdBy : Option String
  updated : Option String
  updatedBy : Option String
deriving DecidableEq, Repr

/-- A value stored in the key-value binding.  The binding stores raw
strings; `record r` stands for `JSON.stringify` of the record `r`
(which `JSON.parse` round-trips back to `r`, and which is never the
empty string), while `junk s` stands for a string on which
`JSON.parse` throws. -/
inductive StoredValue where
  | record (r : LinkRecord)
  | junk (s : String)
deriving DecidableEq, Repr

/-- JS truthiness of a stored string: `JSON.stringify` output is
never empty, an unparseable string is truthy unless empty. -/
def StoredValue.truthy : StoredValue → Bool
  | .record _ => true
  | .junk s => !(s == "")

/-- The contents of the key-value binding: an association of keys to
stored strings. -/
def KvState : Type := List (String × StoredValue)

/-- `env.SHORT_LINKS.get(k)`: the stored string, or null. -/
def kvGet (st : KvState) (k : String) : Option StoredValue :=
  (List.find? (fun p => p.1 == k) st).map (fun p => p.2)

/-- `env.SHORT_LINKS.put(k, v)`: store `v` under `k`, replacing any
previous value. -/
def kvPut (st : KvState) (k : String) (v : StoredValue) : KvState :=
  (k, v) :: List.filter (fun p => !(p.1 == k)) st

/-- `env.SHORT_LINKS.delete(k)`. -/
def kvDelete (st : KvState) (k : String) : KvState :=
  List.filter (fun p => !(p.1 == k)) st

/-- Truthiness of the result of a `get`: null is falsy, stored
strings by `StoredValue.truthy` — this is the `if (existing)` /
`if (shortLink)` test. -/
def truthyGot (v : Option StoredValue) : Bool :=
  match v with
  | none => false
  | some sv => sv.truthy

/-- A blob-store object as the handler consumes it: its (possibly
null) body stream, its `httpEtag`, and the metadata header bundle
that `writeHttpMetadata` copies onto the response. -/
structure R2Object where
  body : Option String
  httpEtag : String
  meta : List (String × String)
deriving DecidableEq, Repr

/-- A parsed request body as `await request.json()` delivers it:
the two fields the handler reads, each possibly absent. -/
structure ReqBody where
  key : Option String
  url : Option String
deriving DecidableEq, Repr

/-- An inbound request: method, URL path, the `Authorization` header
(`none` when absent), and the result of `await request.json()`
(`none` when parsing the body throws). -/
structure Request where
  method : String
  pathname : String
  authHeader : Option String
  jsonBody : Option ReqBody
deriving DecidableEq, Repr

/-- A response body: plain text, a blob body stream, or the
`JSON.stringify` of a success object (`url` absent on DELETE). -/
inductive RespBody where
  | text (s : String)
  | stream (s : String)
  | successJson (key : String) (url : Option String)
deriving DecidableEq, Repr

/-- An HTTP response as the handler builds it: status plus the
headers and body the handler sets. -/
structure HttpResponse where
  status : Nat
  location : Option String := none
  allow : Option String := none
  contentType : Option String := none
  etag : Option String := none
  meta : List (String × String) := []
  body : Option RespBody := none
deriving DecidableEq, Repr

/-- The worker environment: whether the `SHORT_LINKS` binding is
present, the `PUBLIC_BUCKET.get` behavior, the JWT-verification
environment, and the ISO timestamp `new Date().toISOString()`
produces at write time. -/
structure Env where
  hasShortLinks : Bool
  bucket : String → Option R2Object
  jwt : JwtEnv
  nowIso : String

/-- `extractToken(request)` from the source: read the Authorization
header (absent or empty is falsy), split on spaces, require exactly
two parts with the first strictly equal to `Bearer`, and return the
second part. -/
def extractToken (req : Request) : Option String :=
  match req.authHeader with
  | none => none
  | some h =>
    if h == "" then none
    else
      let parts := jsSplit ' ' h
      if !(parts.length == 2) || !(parts.headD "" == "Bearer") then none
      else parts[1]?

/-- `authResult.sub || 'unknown'`: the subject, with absent or empty
(falsy) subjects replaced by the sentinel. -/
def subOrUnknown (v : Option String) : String :=
  match v with
  | none => "unknown"
  | some s => if s == "" then "unknown" else s

/-- JS falsiness of a string-valued body field (`!body.key`):
absent or empty. -/
def falsyStr (v : Option String) : Bool :=
  match v with
  | none => true
  | some s => s == ""

/-- `requireAuth(request, env)` from the source: 401 when no (truthy)
token is extracted, 401 when verification fails, otherwise the
claim set. -/
def requireAuth (req : Request) (env : Env) : Except HttpResponse Claims :=
  match extractToken req with
  | none =>
    .error { status := 401, body := some (.text "Unauthorized: No token provided") }
  | some tok =>
    if tok == "" then
      .error { status := 401, body := some (.text "Unauthorized: No token provided") }
    else
      match verifyJWT tok env.jwt with
      | none =>
        .error { status := 401, body := some (.text "Unauthorized: Invalid token") }
      | some payload => .ok payload

/-- The blob-store fall-back of the GET path: 404 when the object is
missing or its body is falsy, otherwise 200 with the body stream,
the metadata headers, and the `etag` header. -/
def bucketLookup (env : Env) (key : String) : HttpResponse :=
  match env.bucket key with
  | none => { status := 404, body := some (.text ("Object Not Found: " ++ key)) }
  | some obj =>
    match obj.body with
    | none => { status := 404, body := some (.text ("Object Not Found: " ++ key)) }
    | some b =>
      { status := 200, etag := some obj.httpEtag, meta := obj.meta,
        body := some (.stream b) }

/-- The fixed documentation URL the empty-key GET redirects to. -/
def sourceUrl : String := "https://github.com/pkoch/pkoch-public-bucket"

/-- The default export's `fetch(request, env)`: the top-level request
handler, returning the response together with the key-value store
contents after the request.  Translated case by case from the
source's `switch (request.method)`; `key` is `url.pathname.slice(1)`. -/
def fetchHandler (req : Request) (env : Env) (st : KvState) : HttpResponse × KvState :=
  let key := String.mk req.pathname.data.tail
  match req.method with
  | "GET" =>
    if key == "" then
      ({ status := 302, location := some sourceUrl,
         body := some (.text ("I need a key. Check the source at " ++ sourceUrl ++ "\n")) },
       st)
    else
      if env.hasShortLinks then
        let shortLink := kvGet st key
        if truthyGot shortLink then
          match shortLink with
          | some (.record linkData) =>
            ({ status := 302, location := some (linkData.url.getD "undefined") }, st)
          | _ => (bucketLookup env key, st)
        else (bucketLookup env key, st)
      else (bucketLookup env key, st)
  | "POST" =>
    if !env.hasShortLinks then
      ({ status := 503, body := some (.text "Short links not configured") }, st)
    else
      match requireAuth req env with
      | .error resp => (resp, st)
      | .ok authResult =>
        match req.jsonBody with
        | none => ({ status := 400, body := some (.text "Invalid request body") }, st)
        | some body =>
          if falsyStr body.key || falsyStr body.url then
            ({ status := 400,
               body := some (.text "Missing required fields: key and url") }, st)
          else
            let bkey := body.key.getD ""
            let burl := body.url.getD ""
            if truthyGot (kvGet st bkey) then
              ({ status := 409, body := some (.text "Short link already exists") }, st)
            else
              let linkData : LinkRecord :=
                { url := some burl, created := some env.nowIso,
                  createdBy := some (subOrUnknown authResult.sub),
                  updated := none, updatedBy := none }
              ({ status := 201, contentType := some "application/json",
                 body := some (.successJson bkey (some burl)) },
               kvPut st bkey (.record linkData))
  | "PUT" =>
    if !env.hasShortLinks then
      ({ status := 503, body := some (.text "Short links not configured") }, st)
    else
      match requireAuth req env with
      | .error resp => (resp, st)
      | .ok authResultPut =>
        match req.jsonBody with
        | none => ({ status := 400, body := some (.text "Invalid request body") }, st)
        | some bodyPut =>
          if falsyStr bodyPut.key || falsyStr bodyPut.url then
            ({ status := 400,
               body := some (.text "Missing required fields: key and url") }, st)
          else
            let bkey := bodyPut.key.getD ""
            let burl := bodyPut.url.getD ""
            if !(truthyGot (kvGet st bkey)) then
              ({ status := 404, body := some (.text "Short link not found") }, st)
            else
              let linkDataPut : LinkRecord :=
                { url := some burl, created := none, createdBy := none,
                  updated := some env.nowIso,
                  updatedBy := some (subOrUnknown authResultPut.sub) }
              ({ status := 200, contentType := some "application/json",
                 body := some (.successJson bkey (some burl)) },
               kvPut st bkey (.record linkDataPut))
  | "DELETE" =>
    if !env.hasShortLinks then
      ({ status := 503, body := some (.text "Short links not configured") }, st)
    else
      match requireAuth req env with
      | .error resp => (resp, st)
      | .ok _ =>
        if key == "" then
          ({ status := 400, body := some (.text "Missing key") }, st)
        else if !(truthyGot (kvGet st key)) then
          ({ status := 404, body := some (.text "Short link not found") }, st)
        else
          ({ status := 200, contentType := some "application/json",
             body := some (.successJson key none) },
           kvDelete st key)
  | _ =>
    ({ status := 405, allow := some "GET, POST, PUT, DELETE",
       body := some (.text "Method Not Allowed") }, st)

/-- `kvGet` after `kvPut` on the same key returns the stored value. -/
theorem kvGet_kvPut_self (st : KvState) (k : String) (v : StoredValue) :
    kvGet (kvPut st k v) k = some v := by
  simp [kvGet, kvPut, List.find?]

/-- A concrete four-segment token: a valid three-segment token with a
garbage fourth segment appended. -/
def fourSegToken : String := hdrSeg ++ "." ++ claimSeg ++ "." ++ sigSegC ++ ".junkseg"

/-- Claim C1 counterexample: a token with four dot-separated segments
is accepted by `verifyJWT` (the destructuring of `token.split('.')`
ignores segments past the third), refuting "no token with four or
more dot-separated segments is ever accepted". -/
theorem C1_counterexample :
    (jsSplit '.' fourSegToken).length = 4 ∧
    verifyJWT fourSegToken sampleJwtEnv = some okClaims := by decide

/-- Claim C1 (amended): every token with fewer than three
dot-separated segments is rejected by `verifyJWT`; tokens with more
than three segments are not rejected for their segment count —
verification uses only the first three segments. -/
theorem C1_fewer_than_three_segments_rejected (token : String) (env : JwtEnv)
    (h : (jsSplit '.' token).length < 3) :
    verifyJWT token env = none := by
  unfold verifyJWT
  have h2 : (jsSplit '.' token)[2]? = none := by
    apply List.getElem?_eq_none
    omega
  split
  · rfl
  · simp only [h2]
    split
    · rfl
    · split
      · rfl
      · split
        · rfl
        · rfl

/-- Witness for the amended C1 theorem at the one-segment token
`"abc"`. -/
theorem C1_fewer_than_three_segments_rejected_witness :
    verifyJWT "abc" sampleJwtEnv = none :=
  C1_fewer_than_three_segments_rejected "abc" sampleJwtEnv (by decide)

/-- A concrete token whose claim set carries `exp = 0`. -/
def expZeroToken : String := hdrSeg ++ "." ++ expZeroSeg ++ "." ++ sigSegC

/-- A concrete token whose claim set carries a future `exp`. -/
def expFutureToken : String := hdrSeg ++ "." ++ expFutureSeg ++ "." ++ sigSegC

/-- Claim C7 counterexample: a token whose `exp` claim is `0` — hence
strictly less than the current time `1700000000` — is accepted, because
the guard `payload.exp && payload.exp < now` skips the comparison when
`exp` is the falsy number `0`.  This refutes "the check applies … for
every numeric value of `exp`". -/
theorem C7_counterexample :
    expZeroClaims.exp = some 0 ∧ (0 : Int) < sampleJwtEnv.now ∧
    verifyJWT expZeroToken sampleJwtEnv = some expZeroClaims := by decide

/-- Claim C7 (amended): whenever `verifyJWT` accepts a token, any
present and nonzero `exp` claim is not strictly below the current
time; with `exp = 0` (a falsy number in JS) the expiry check is
skipped. -/
theorem C7_nonzero_exp_not_expired (token : String) (env : JwtEnv) (payload : Claims)
    (h : verifyJWT token env = some payload) (e : Int)
    (he : payload.exp = some e) (hne : e ≠ 0) :
    ¬(e < env.now) := by
  unfold verifyJWT at h
  simp only [] at h
  split at h
  · exact Option.noConfusion h
  · split at h
    · exact Option.noConfusion h
    · split at h
      · exact Option.noConfusion h
      · split at h
        · split at h
          · exact Option.noConfusion h
          · split at h
            · exact Option.noConfusion h
            · split at h
              · split at h
                · exact Option.noConfusion h
                · split at h
                  · split at h
                    · split at h
                      · exact Option.noConfusion h
                      · split at h
                        · exact Option.noConfusion h
                        · rename_i hexp hnbf
                          injection h with h
                          subst h
                          intro hlt
                          exact hexp (by simp [truthyNum, he, hne, hlt])
                    · exact Option.noConfusion h
                  · exact Option.noConfusion h
              · exact Option.noConfusion h
        · exact Option.noConfusion h

/-- Witness for the amended C7 theorem: the accepted future-`exp`
token shows its `exp` is not below the current time. -/
theorem C7_nonzero_exp_not_expired_witness :
    ¬((1800000000 : Int) < sampleJwtEnv.now) :=
  C7_nonzero_exp_not_expired expFutureToken sampleJwtEnv expFutureClaims
    (by decide) 1800000000 (by decide) (by decide)

/-- A sample worker environment: both bindings present, the sample
JWT environment, and a fixed write timestamp. -/
def sampleEnv : Env :=
  { hasShortLinks := true
    bucket := fun _ => none
    jwt := sampleJwtEnv
    nowIso := "2026-10-12T00:00:00.000Z" }

/-- A well-formed bearer header carrying the valid sample token. -/
def okAuthHeader : String := "Bearer " ++ hdrSeg ++ "." ++ claimSeg ++ "." ++ sigSegC

def postReqA : Request :=
  { method := "POST", pathname := "/", authHeader := some okAuthHeader,
    jsonBody := some { key := some "a", url := some "https://x" } }

def putReqA : Request :=
  { method := "PUT", pathname := "/", authHeader := some okAuthHeader,
    jsonBody := some { key := some "a", url := some "https://y" } }

def getReqA : Request :=
  { method := "GET", pathname := "/a", authHeader := none, jsonBody := none }

/-- Store contents after creating the short link `a` on an empty
store. -/
def stAfterCreate : KvState := (fetchHandler postReqA sampleEnv []).2

/-- Store contents after then replacing `a` via PUT. -/
def stAfterPut : KvState := (fetchHandler putReqA sampleEnv stAfterCreate).2

example : (fetchHandler postReqA sampleEnv []).1.status = 201 := by decide
example : (fetchHandler getReqA sampleEnv stAfterCreate).1.status = 302 := by decide
example : (fetchHandler getReqA sampleEnv stAfterCreate).1.location = some "https://x" := by decide

/-- Claim C2 counterexample: create `a` (the stored record carries
`created`/`createdBy`), then PUT `a`; the PUT succeeds with 200 but
the stored record afterwards has no `created` and no `createdBy`
field — the update erased the creation-provenance fields. -/
theorem C2_counterexample :
    (fetchHandler postReqA sampleEnv []).1.status = 201 ∧
    kvGet stAfterCreate "a" = some (.record
      { url := some "https://x", created := some sampleEnv.nowIso,
        createdBy := some "s", updated := none, updatedBy := none }) ∧
    (fetchHandler putReqA sampleEnv stAfterCreate).1.status = 200 ∧
    kvGet stAfterPut "a" = some (.record
      { url := some "https://y", created := none, createdBy := none,
        updated := some sampleEnv.nowIso, updatedBy := some "s" }) := by decide

/-- Claim C2 (amended): a successful PUT replaces the stored record
wholesale: afterwards the record for the key holds exactly the new
`url`, the update timestamp and updating subject, and no `created` or
`createdBy` field — creation provenance is not preserved. -/
theorem C2_put_overwrites_record (env : Env) (st : KvState) (req : Request)
    (payload : Claims) (k u : String)
    (hsl : env.hasShortLinks = true)
    (hm : req.method = "PUT")
    (hauth : requireAuth req env = Except.ok payload)
    (hbody : req.jsonBody = some { key := some k, url := some u })
    (hk : ¬(k = "")) (hu : ¬(u = ""))
    (hex : truthyGot (kvGet st k) = true) :
    (fetchHandler req env st).1.status = 200 ∧
    kvGet (fetchHandler req env st).2 k = some (.record
      { url := some u, created := none, createdBy := none,
        updated := some env.nowIso, updatedBy := some (subOrUnknown payload.sub) }) := by
  cases req with
  | mk m p ah jb =>
    subst hm
    subst hbody
    simp [fetchHandler, hsl, hauth, falsyStr, hk, hu, hex, kvGet_kvPut_self]

/-- Witness for the amended C2 theorem at the concrete
create-then-PUT scenario. -/
theorem C2_put_overwrites_record_witness :
    kvGet (fetchHandler putReqA sampleEnv stAfterCreate).2 "a" = some (.record
      { url := some "https://y", created := none, createdBy := none,
        updated := some sampleEnv.nowIso,
        updatedBy := some (subOrUnknown okClaims.sub) }) :=
  (C2_put_overwrites_record sampleEnv stAfterCreate putReqA okClaims "a" "https://y"
    (by decide) rfl (by rfl) rfl (by decide) (by decide) (by decide)).2

/-- Every `requireAuth` rejection is a 401 response. -/
theorem requireAuth_error_status (req : Request) (env : Env) (resp : HttpResponse)
    (h : requireAuth req env = Except.error resp) : resp.status = 401 := by
  unfold requireAuth at h
  split at h
  · injection h with h
    subst h
    rfl
  · split at h
    · injection h with h
      subst h
      rfl
    · split at h
      · injection h with h
        subst h
        rfl
      · exact Except.noConfusion h

/-- The blob fall-back answers 404 or 200. -/
theorem bucketLookup_status (env : Env) (key : String) :
    (bucketLookup env key).status = 404 ∨ (bucketLookup env key).status = 200 := by
  unfold bucketLookup
  split
  · left
    rfl
  · split
    · left
      rfl
    · right
      rfl

/-- Claim C3: for every inbound request — any method, any path, any
environment and store contents — the handler returns an HTTP
response, and its status is one of the statuses the handler is
documented to produce; no branch escapes without building a
response. -/
theorem C3_every_request_gets_response (req : Request) (env : Env) (st : KvState) :
    (fetchHandler req env st).1.status ∈
      ([200, 201, 302, 400, 401, 404, 405, 409, 503] : List Nat) := by
  unfold fetchHandler
  simp only []
  repeat' split
  all_goals
    first
    | (rename_i resp hre
       have h401 := requireAuth_error_status req env resp hre
       simp [h401])
    | (rcases bucketLookup_status env (String.mk req.pathname.data.tail) with hbl | hbl <;>
        simp [hbl])

/-- A stored record is always truthy (`JSON.stringify` output is a
nonempty string). -/
theorem truthyGot_record (r : LinkRecord) :
    truthyGot (some (.record r)) = true := rfl

/-- Claim C4: a successful authenticated POST creating the short link
`k → u`, followed immediately by `GET /k`, yields a 302 response whose
Location header equals `u`. -/
theorem C4_create_then_get (env : Env) (st : KvState) (post getReq : Request)
    (payload : Claims) (k u : String)
    (hsl : env.hasShortLinks = true)
    (hpm : post.method = "POST")
    (hauth : requireAuth post env = Except.ok payload)
    (hbody : post.jsonBody = some { key := some k, url := some u })
    (hk : ¬(k = "")) (hu : ¬(u = ""))
    (habs : truthyGot (kvGet st k) = false)
    (hgm : getReq.method = "GET")
    (hgp : getReq.pathname = "/" ++ k) :
    (fetchHandler post env st).1.status = 201 ∧
    (fetchHandler getReq env (fetchHandler post env st).2).1.status = 302 ∧
    (fetchHandler getReq env (fetchHandler post env st).2).1.location = some u := by
  cases post with
  | mk pm pp pah pjb =>
    subst hpm
    subst hbody
    cases getReq with
    | mk gm gp gah gjb =>
      subst hgm
      subst hgp
      have hkey : String.mk (("/" ++ k).data).tail = k := rfl
      simp [fetchHandler, hsl, hauth, falsyStr, hk, hu, habs, hkey,
        kvGet_kvPut_self, truthyGot_record]

/-- Witness for C4 at the concrete create-then-read scenario. -/
theorem C4_create_then_get_witness :
    (fetchHandler getReqA sampleEnv (fetchHandler postReqA sampleEnv []).2).1.location
      = some "https://x" :=
  (C4_create_then_get sampleEnv [] postReqA getReqA okClaims "a" "https://x"
    (by decide) rfl (by rfl) rfl (by decide) (by decide) (by decide) rfl rfl).2.2

/-- Claim C5: after a successful create of key `k`, a second POST for
the same key returns 409 and the store — hence the stored record for
`k` — is unchanged from the first create. -/
theorem C5_duplicate_create_conflict (env : Env) (st : KvState) (post post2 : Request)
    (payload payload2 : Claims) (k u u2 : String)
    (hsl : env.hasShortLinks = true)
    (hpm : post.method = "POST")
    (hauth : requireAuth post env = Except.ok payload)
    (hbody : post.jsonBody = some { key := some k, url := some u })
    (hk : ¬(k = "")) (hu : ¬(u = ""))
    (habs : truthyGot (kvGet st k) = false)
    (hpm2 : post2.method = "POST")
    (hauth2 : requireAuth post2 env = Except.ok payload2)
    (hbody2 : post2.jsonBody = some { key := some k, url := some u2 })
    (hu2 : ¬(u2 = "")) :
    (fetchHandler post env st).1.status = 201 ∧
    (fetchHandler post2 env (fetchHandler post env st).2).1.status = 409 ∧
    (fetchHandler post2 env (fetchHandler post env st).2).2 = (fetchHandler post env st).2 := by
  cases post with
  | mk pm pp pah pjb =>
    subst hpm
    subst hbody
    cases post2 with
    | mk qm qp qah qjb =>
      subst hpm2
      subst hbody2
      simp [fetchHandler, hsl, hauth, hauth2, falsyStr, hk, hu, hu2, habs,
        kvGet_kvPut_self, truthyGot_record]

/-- A second create attempt for key `a` with a different target. -/
def postReqA2 : Request :=
  { method := "POST", pathname := "/", authHeader := some okAuthHeader,
    jsonBody := some { key := some "a", url := some "https://z" } }

/-- Witness for C5 at the concrete duplicate-create scenario. -/
theorem C5_duplicate_create_conflict_witness :
    (fetchHandler postReqA2 sampleEnv (fetchHandler postReqA sampleEnv []).2).1.status = 409 :=
  (C5_duplicate_create_conflict sampleEnv [] postReqA postReqA2 okClaims okClaims
    "a" "https://x" "https://z"
    (by decide) rfl (by rfl) rfl (by decide) (by decide) (by decide)
    rfl (by rfl) rfl (by decide)).2.1

/-- Claim C6: a POST, PUT, or DELETE request carrying no Authorization
header, with the link store configured, gets a 401 response and the
key-value store is identical before and after the request. -/
theorem C6_no_auth_header_rejected (env : Env) (st : KvState) (req : Request)
    (hsl : env.hasShortLinks = true)
    (hh : req.authHeader = none)
    (hm : req.method = "POST" ∨ req.method = "PUT" ∨ req.method = "DELETE") :
    (fetchHandler req env st).1.status = 401 ∧
    (fetchHandler req env st).2 = st := by
  cases req with
  | mk m p ah jb =>
    subst hh
    rcases hm with hm | hm | hm <;> subst hm <;>
      simp [fetchHandler, requireAuth, extractToken, hsl]

/-- An unauthenticated create request. -/
def noAuthPost : Request :=
  { method := "POST", pathname := "/", authHeader := none,
    jsonBody := some { key := some "a", url := some "https://x" } }

/-- Witness for C6 at a concrete unauthenticated POST. -/
theorem C6_no_auth_header_rejected_witness :
    (fetchHandler noAuthPost sampleEnv []).1.status = 401 ∧
    (fetchHandler noAuthPost sampleEnv []).2 = [] :=
  C6_no_auth_header_rejected sampleEnv [] noAuthPost (by decide) rfl (Or.inl rfl)

/-- Claim C8: with the key-value binding absent, POST, PUT and DELETE
answer 503 with the store untouched, regardless of any authentication
outcome (the binding check precedes the auth gate), while GET for a
non-empty key serves exactly the blob-store lookup, as if no short
link existed. -/
theorem C8_no_binding_degrades (env : Env) (st : KvState) (req : Request)
    (hsl : env.hasShortLinks = false) :
    ((req.method = "POST" ∨ req.method = "PUT" ∨ req.method = "DELETE") →
      (fetchHandler req env st).1.status = 503 ∧ (fetchHandler req env st).2 = st) ∧
    (req.method = "GET" → ¬(String.mk req.pathname.data.tail = "") →
      fetchHandler req env st = (bucketLookup env (String.mk req.pathname.data.tail), st)) := by
  cases req with
  | mk m p ah jb =>
    constructor
    · intro hm
      rcases hm with hm | hm | hm <;> subst hm <;> simp [fetchHandler, hsl]
    · intro hm hk
      subst hm
      simp [fetchHandler, hsl, hk]

/-- The sample environment with the `SHORT_LINKS` binding removed. -/
def noBindingEnv : Env :=
  { sampleEnv with hasShortLinks := false }

/-- Witness for C8: a POST without the binding gets 503 and changes
nothing. -/
theorem C8_no_binding_degrades_witness :
    (fetchHandler postReqA noBindingEnv []).1.status = 503 ∧
    (fetchHandler postReqA noBindingEnv []).2 = [] :=
  (C8_no_binding_degrades noBindingEnv [] postReqA rfl).1 (Or.inl rfl)

/-- Claim C9: when the stored entry for a non-empty key is present but
not parseable as JSON, GET does not fail: the request falls through to
the blob-store lookup (hence 404 on blob miss and 200 on a blob hit
with a body). -/
theorem C9_unparseable_entry_falls_through (env : Env) (st : KvState) (req : Request)
    (k s : String)
    (hsl : env.hasShortLinks = true)
    (hm : req.method = "GET")
    (hp : req.pathname = "/" ++ k)
    (hk : ¬(k = ""))
    (hjunk : kvGet st k = some (.junk s)) :
    fetchHandler req env st = (bucketLookup env k, st) ∧
    (env.bucket k = none → (fetchHandler req env st).1.status = 404) ∧
    (∀ obj b, env.bucket k = some obj → obj.body = some b →
      (fetchHandler req env st).1.status = 200) := by
  cases req with
  | mk m p ah jb =>
    subst hm
    subst hp
    have hkey : String.mk (("/" ++ k).data).tail = k := rfl
    have hmain :
        fetchHandler (Request.mk "GET" ("/" ++ k) ah jb) env st
          = (bucketLookup env k, st) := by
      by_cases hs : s = ""
      · subst hs
        simp [fetchHandler, hsl, hkey, hk, hjunk, truthyGot, StoredValue.truthy]
      · simp [fetchHandler, hsl, hkey, hk, hjunk, truthyGot, StoredValue.truthy, hs]
    refine ⟨hmain, ?_, ?_⟩
    · intro hb
      rw [hmain]
      simp [bucketLookup, hb]
    · intro obj b hobj hbody
      rw [hmain]
      simp [bucketLookup, hobj, hbody]

/-- A store holding an unparseable value under key `j`. -/
def junkSt : KvState := [("j", .junk "not json")]

def getReqJ : Request :=
  { method := "GET", pathname := "/j", authHeader := none, jsonBody := none }

/-- Witness for C9: the GET on the corrupt entry equals the blob
fall-back. -/
theorem C9_unparseable_entry_falls_through_witness :
    fetchHandler getReqJ sampleEnv junkSt = (bucketLookup sampleEnv "j", junkSt) :=
  (C9_unparseable_entry_falls_through sampleEnv junkSt getReqJ "j" "not json"
    (by decide) rfl rfl (by decide) rfl).1

/-- Claim C10: when no short-link entry exists for a non-empty key and
the blob store returns an object whose body is absent, GET answers 404
with body `Object Not Found: <key>` rather than an empty 200. -/
theorem C10_null_body_is_404 (env : Env) (st : KvState) (req : Request) (k : String)
    (obj : R2Object)
    (hm : req.method = "GET")
    (hp : req.pathname = "/" ++ k)
    (hk : ¬(k = ""))
    (hnolink : kvGet st k = none)
    (hobj : env.bucket k = some obj)
    (hbody : obj.body = none) :
    fetchHandler req env st =
      ({ status := 404, body := some (.text ("Object Not Found: " ++ k)) }, st) := by
  cases req with
  | mk m p ah jb =>
    subst hm
    subst hp
    have hkey : String.mk (("/" ++ k).data).tail = k := rfl
    by_cases hsl : env.hasShortLinks <;>
      simp [fetchHandler, bucketLookup, hsl, hkey, hk, hnolink, hobj, hbody, truthyGot]

/-- An environment whose bucket holds an object with a null body under
key `b`. -/
def nullBodyEnv : Env :=
  { sampleEnv with
    bucket := fun key =>
      if key = "b" then some { body := none, httpEtag := "W", meta := [] } else none }

def getReqB : Request :=
  { method := "GET", pathname := "/b", authHeader := none, jsonBody := none }

/-- Witness for C10 at the concrete null-body object. -/
theorem C10_null_body_is_404_witness :
    fetchHandler getReqB nullBodyEnv [] =
      ({ status := 404, body := some (.text ("Object Not Found: " ++ "b")) }, []) :=
  C10_null_body_is_404 nullBodyEnv [] getReqB "b"
    { body := none, httpEtag := "W", meta := [] }
    rfl rfl (by decide) rfl (by decide) rfl
